import Mathlib

/-!
Verification of `GPTEmptyIndexQuery` (src/gpt_index/indices/empty/query.py).

The class is a no-retrieval query strategy: `retrieve` always returns an
empty list, and `synthesize` forwards the query string through a template
prompt to the language-model prediction service, either via a blocking
`predict` call or a streaming `predict_with_stream` call, wrapping the
returned text in a `Response`.

Collaborator types (`QueryBundle`, `NodeWithScore`, `Response`,
`StreamingResponse`, `ResponseMode`, `SimpleInputPrompt`,
`DEFAULT_SIMPLE_INPUT_PROMPT`, the llm predictor and the base factory) are
imported by the source file from modules outside this fragment; they are
modelled from the specification's descriptions of them. The methods of
`GPTEmptyIndexQuery` themselves are translated directly from the source.

The prediction service is modelled as a pair of deterministic fallible
functions; `synthesize` additionally returns the list of prediction calls
it issued, so that the "exactly one call" and non-interference properties
are directly statable.
-/

/-- Modelled from the spec: a reusable, parametrized text template with one
recognized substitution slot, `query_str` (class `SimpleInputPrompt` of
`gpt_index.prompts.prompts`, outside this fragment). -/
structure SimpleInputPrompt where
  template : String
  deriving DecidableEq, Repr

/-- Modelled from the spec: the module-level default template used when no
template is supplied at construction (`DEFAULT_SIMPLE_INPUT_PROMPT` of
`gpt_index.prompts.default_prompts`, outside this fragment): a template that
is just the single `query_str` slot. -/
def DEFAULT_SIMPLE_INPUT_PROMPT : SimpleInputPrompt :=
  { template := "\x7bquery_str\x7d" }

/-- Python runtime values bindable to the `input_prompt` parameter.  The
annotation is `Optional[SimpleInputPrompt]`, but the constructor tests the
argument with `or`, i.e. by Python truthiness, so the model keeps a small
universe of Python values with their truthiness. -/
inductive PyObject where
  | pyNone
  | pyBool (b : Bool)
  | pyInt (n : Int)
  | pyStr (s : String)
  | pyPrompt (p : SimpleInputPrompt)
  deriving DecidableEq, Repr

/-- Python truthiness of the modelled values.  `None`, `False`, `0` and `""`
are falsy; a prompt template object defines neither `__bool__` nor `__len__`
and is therefore always truthy. -/
def PyObject.truthy : PyObject → Bool
  | PyObject.pyNone => false
  | PyObject.pyBool b => b
  | PyObject.pyInt n => decide (n ≠ 0)
  | PyObject.pyStr s => !s.isEmpty
  | PyObject.pyPrompt _ => true

/-- Modelled from the spec: the immutable query input carrying the query
string plus optional auxiliary fields owned by the caller (class
`QueryBundle` of `gpt_index.indices.query.schema`, outside this fragment). -/
structure QueryBundle where
  query_str : String
  custom_embedding_strs : Option (List String)
  deriving DecidableEq, Repr

/-- Modelled from the spec: a retrieval result record, a document fragment
together with an optional relevance score (class `NodeWithScore` of
`gpt_index.data_structs.node_v2`, outside this fragment). -/
structure NodeWithScore where
  text : String
  score : Option Int
  deriving DecidableEq, Repr

/-- Modelled from the spec: the output wrapper holding the generated text
plus source-node provenance (class `Response` of
`gpt_index.response.schema`, outside this fragment).  The one-argument
constructor call `Response(text)` leaves `source_nodes` at its empty
default. -/
structure Response where
  response : Option String
  source_nodes : List NodeWithScore
  deriving DecidableEq, Repr

/-- Modelled from the spec: the streaming-typed response wrapper (class
`StreamingResponse` of `gpt_index.response.schema`, outside this fragment);
it holds a generator of chunks rather than a finished text. -/
structure StreamingResponse where
  response_gen : List String
  source_nodes : List NodeWithScore
  deriving DecidableEq, Repr

/-- Modelled from the spec: the union return type `RESPONSE_TYPE` of
`gpt_index.response.schema`: either a plain `Response` or a
`StreamingResponse`. -/
inductive RESPONSE_TYPE where
  | plain (r : Response)
  | streaming (s : StreamingResponse)
  deriving DecidableEq, Repr

/-- Modelled from the spec: the response-mode enumeration (enum
`ResponseMode` of `gpt_index.indices.response.type`, outside this
fragment), with at least a `GENERATION` value among modes that synthesize
from retrieved nodes. -/
inductive ResponseMode where
  | DEFAULT
  | COMPACT
  | TREE_SUMMARIZE
  | SIMPLE_SUMMARIZE
  | GENERATION
  | NO_TEXT
  deriving DecidableEq, Repr

/-- A single call observed at the prediction-service boundary: either a
blocking `predict(prompt, query_str=...)` or a streaming
`predict_with_stream(prompt, is_last=..., query_str=...)`. -/
inductive PredCall where
  | predict (prompt : PyObject) (query_str : String)
  | predict_with_stream (prompt : PyObject) (is_last : Bool) (query_str : String)
  deriving DecidableEq, Repr

/-- The template argument a prediction call passes to the service. -/
def PredCall.prompt : PredCall → PyObject
  | PredCall.predict p _ => p
  | PredCall.predict_with_stream p _ _ => p

/-- The `query_str` keyword argument a prediction call passes to the
service. -/
def PredCall.queryArg : PredCall → String
  | PredCall.predict _ q => q
  | PredCall.predict_with_stream _ _ q => q

/-- Modelled from the spec: the prediction service, exposing
`predict(template, **substitutions) -> (text, formatted_prompt)` and
`predict_with_stream(template, is_last, **substitutions)`, each of which may
fail; failures are modelled as `Except.error`. -/
structure LLMPredictor where
  predict : PyObject → String → Except String (String × String)
  predict_with_stream : PyObject → Bool → String → Except String (String × String)

/-- Modelled from the spec: the service context holding the prediction
service reference. -/
structure ServiceContext where
  llm_predictor : LLMPredictor

/-- The state of a constructed `GPTEmptyIndexQuery`: the stored template and
the configuration fields set by the shared base initializer (`_streaming`
flag and `_service_context` reference). -/
structure GPTEmptyIndexQuery where
  _input_prompt : PyObject
  _streaming : Bool
  _service_context : ServiceContext

namespace GPTEmptyIndexQuery

/-- Constructor `__init__`: stores `input_prompt or DEFAULT_SIMPLE_INPUT_PROMPT` — a
Python truthiness test, not an `is None` test — and forwards the remaining
keyword configuration to the shared base initializer, which sets
`_streaming` and `_service_context` (base behaviour modelled from the
spec). -/
def init (input_prompt : PyObject) (streaming : Bool)
    (service_context : ServiceContext) : GPTEmptyIndexQuery :=
  { _input_prompt :=
      if input_prompt.truthy then input_prompt
      else PyObject.pyPrompt DEFAULT_SIMPLE_INPUT_PROMPT,
    _streaming := streaming,
    _service_context := service_context }

/-- Method `retrieve`: deletes (ignores) its argument and returns the empty
list. -/
def retrieve (self : GPTEmptyIndexQuery) (query_bundle : QueryBundle) :
    List NodeWithScore :=
  let _ := query_bundle
  ([] : List NodeWithScore)

/-- Method `synthesize`: deletes (ignores) `nodes` and `additional_source_nodes`;
if not streaming, calls `predict` once with the stored template and the
bundle's `query_str` and wraps the returned text in `Response(response)`;
otherwise calls `predict_with_stream` once with `is_last=True` and likewise
wraps the returned text in a plain `Response`.  The first component of the
result is the list of prediction calls issued; a service failure is
returned as `Except.error` (the exception propagates, no `Response` is
built). -/
def synthesize (self : GPTEmptyIndexQuery) (query_bundle : QueryBundle)
    (nodes : List NodeWithScore)
    (additional_source_nodes : Option (List NodeWithScore)) :
    List PredCall × Except String RESPONSE_TYPE :=
  let _ := nodes
  let _ := additional_source_nodes
  if !self._streaming then
    match self._service_context.llm_predictor.predict
        self._input_prompt query_bundle.query_str with
    | Except.ok (response, _) =>
        ([PredCall.predict self._input_prompt query_bundle.query_str],
         Except.ok (RESPONSE_TYPE.plain
           { response := some response, source_nodes := [] }))
    | Except.error e =>
        ([PredCall.predict self._input_prompt query_bundle.query_str],
         Except.error e)
  else
    let llm_predictor := self._service_context.llm_predictor
    match llm_predictor.predict_with_stream
        self._input_prompt true query_bundle.query_str with
    | Except.ok (response, _) =>
        ([PredCall.predict_with_stream self._input_prompt true
            query_bundle.query_str],
         Except.ok (RESPONSE_TYPE.plain
           { response := some response, source_nodes := [] }))
    | Except.error e =>
        ([PredCall.predict_with_stream self._input_prompt true
            query_bundle.query_str],
         Except.error e)

end GPTEmptyIndexQuery

/-- The result of the shared base factory: the response mode it was handed
together with the instance it constructed. -/
structure BuiltQuery where
  response_mode : ResponseMode
  query : GPTEmptyIndexQuery

/-- Modelled from the spec: the shared base factory
(`BaseGPTIndexQuery.from_args`, outside this fragment) constructs the query
instance from the forwarded keyword configuration via the class
constructor. -/
def BaseGPTIndexQuery.from_args (response_mode : ResponseMode)
    (input_prompt : PyObject) (streaming : Bool)
    (service_context : ServiceContext) : BuiltQuery :=
  { response_mode := response_mode,
    query := GPTEmptyIndexQuery.init input_prompt streaming service_context }

/-- Factory `from_args`: `response_mode` defaults to `GENERATION`; any other mode
raises `ValueError("response_mode should not be specified for empty
query")` before delegating; otherwise the call is forwarded to the base
factory. -/
def GPTEmptyIndexQuery.from_args (response_mode : ResponseMode)
    (input_prompt : PyObject) (streaming : Bool)
    (service_context : ServiceContext) : Except String BuiltQuery :=
  if response_mode ≠ ResponseMode.GENERATION then
    Except.error "response_mode should not be specified for empty query"
  else
    Except.ok (BaseGPTIndexQuery.from_args response_mode input_prompt
      streaming service_context)

/-- The default value of the `response_mode` parameter of `from_args`, used
when the caller omits the argument. -/
def GPTEmptyIndexQuery.from_args_default_response_mode : ResponseMode :=
  ResponseMode.GENERATION

/-- A concrete prediction service that always succeeds, answering "Paris";
used to instantiate the general theorems at concrete inputs. -/
def svcOk : ServiceContext :=
  { llm_predictor :=
      { predict := fun _ _ => Except.ok ("Paris", "capital of France"),
        predict_with_stream := fun _ _ _ => Except.ok ("Paris", "capital of France") } }

/-- A concrete prediction service that always fails with a provider
error. -/
def svcErr : ServiceContext :=
  { llm_predictor :=
      { predict := fun _ _ => Except.error "provider failure",
        predict_with_stream := fun _ _ _ => Except.error "provider failure" } }

/-- A concrete query bundle. -/
def bundle0 : QueryBundle :=
  { query_str := "capital of France", custom_embedding_strs := none }

/-- A concrete non-empty node list, to exercise the ignored arguments. -/
def nodes0 : List NodeWithScore :=
  [{ text := "some retrieved fragment", score := some 7 }]

/-- The list of prediction calls `synthesize` issues: exactly one call,
`predict` on the stored template when non-streaming, `predict_with_stream`
with `is_last=True` when streaming, always with the bundle's query
string. -/
theorem synthesize_calls_eq (q : GPTEmptyIndexQuery) (b : QueryBundle)
    (nodes : List NodeWithScore) (asn : Option (List NodeWithScore)) :
    (q.synthesize b nodes asn).1
      = if q._streaming then
          [PredCall.predict_with_stream q._input_prompt true b.query_str]
        else [PredCall.predict q._input_prompt b.query_str] := by
  unfold GPTEmptyIndexQuery.synthesize
  cases hq : q._streaming
  · cases hp : q._service_context.llm_predictor.predict q._input_prompt b.query_str <;>
      simp [hq, hp]
  · cases hp : q._service_context.llm_predictor.predict_with_stream
        q._input_prompt true b.query_str <;>
      simp [hq, hp]

/-- The outcome of `synthesize` is the outcome of the single service call,
with a successful text wrapped as a plain `Response` carrying no source
nodes, and an error passed through unchanged. -/
theorem synthesize_result_eq (q : GPTEmptyIndexQuery) (b : QueryBundle)
    (nodes : List NodeWithScore) (asn : Option (List NodeWithScore)) :
    (q.synthesize b nodes asn).2
      = (if q._streaming then
           q._service_context.llm_predictor.predict_with_stream
             q._input_prompt true b.query_str
         else
           q._service_context.llm_predictor.predict
             q._input_prompt b.query_str).map
          (fun pr => RESPONSE_TYPE.plain
            { response := some pr.1, source_nodes := [] }) := by
  unfold GPTEmptyIndexQuery.synthesize
  cases hq : q._streaming
  · cases hp : q._service_context.llm_predictor.predict q._input_prompt b.query_str <;>
      simp [hq, hp, Except.map]
  · cases hp : q._service_context.llm_predictor.predict_with_stream
        q._input_prompt true b.query_str <;>
      simp [hq, hp, Except.map]

/-- C1: for a non-streaming configuration, `synthesize` calls the
prediction service's `predict` exactly once, passing the configured input
template together with the bundle's `query_str` for its single slot, and
returns a plain `Response` wrapping the text the service returned,
verbatim. -/
theorem synthesize_nonstreaming_single_predict_call
    (q : GPTEmptyIndexQuery) (b : QueryBundle) (nodes : List NodeWithScore)
    (asn : Option (List NodeWithScore)) (text fmt : String)
    (hs : q._streaming = false)
    (hp : q._service_context.llm_predictor.predict q._input_prompt b.query_str
        = Except.ok (text, fmt)) :
    q.synthesize b nodes asn
      = ([PredCall.predict q._input_prompt b.query_str],
         Except.ok (RESPONSE_TYPE.plain
           { response := some text, source_nodes := [] })) := by
  have h1 := synthesize_calls_eq q b nodes asn
  have h2 := synthesize_result_eq q b nodes asn
  rw [hs] at h1 h2
  simp only [if_neg Bool.false_ne_true, Bool.false_eq_true, if_false] at h1 h2
  rw [hp] at h2
  exact Prod.ext h1 h2

/-- C1 witness: at a concrete non-streaming instance with the default
template and the query string "capital of France". -/
theorem synthesize_nonstreaming_single_predict_call_witness :
    (GPTEmptyIndexQuery.init PyObject.pyNone false svcOk).synthesize bundle0 nodes0 none
      = ([PredCall.predict (PyObject.pyPrompt DEFAULT_SIMPLE_INPUT_PROMPT)
            "capital of France"],
         Except.ok (RESPONSE_TYPE.plain
           { response := some "Paris", source_nodes := [] })) :=
  synthesize_nonstreaming_single_predict_call
    (GPTEmptyIndexQuery.init PyObject.pyNone false svcOk) bundle0 nodes0 none
    "Paris" "capital of France" rfl rfl

/-- C2: for a streaming configuration, `synthesize` calls
`predict_with_stream` exactly once with `is_last=True` and the bundle's
`query_str` under the configured template, and still returns a plain
`Response` (the `RESPONSE_TYPE.plain` variant, not the streaming-typed
wrapper) holding the returned text. -/
theorem synthesize_streaming_single_stream_call
    (q : GPTEmptyIndexQuery) (b : QueryBundle) (nodes : List NodeWithScore)
    (asn : Option (List NodeWithScore)) (text fmt : String)
    (hs : q._streaming = true)
    (hp : q._service_context.llm_predictor.predict_with_stream
        q._input_prompt true b.query_str = Except.ok (text, fmt)) :
    q.synthesize b nodes asn
      = ([PredCall.predict_with_stream q._input_prompt true b.query_str],
         Except.ok (RESPONSE_TYPE.plain
           { response := some text, source_nodes := [] })) := by
  have h1 := synthesize_calls_eq q b nodes asn
  have h2 := synthesize_result_eq q b nodes asn
  rw [hs] at h1 h2
  simp only [if_true] at h1 h2
  rw [hp] at h2
  exact Prod.ext h1 h2

/-- C2 witness: at a concrete streaming instance. -/
theorem synthesize_streaming_single_stream_call_witness :
    (GPTEmptyIndexQuery.init PyObject.pyNone true svcOk).synthesize bundle0 [] none
      = ([PredCall.predict_with_stream
            (PyObject.pyPrompt DEFAULT_SIMPLE_INPUT_PROMPT) true
            "capital of France"],
         Except.ok (RESPONSE_TYPE.plain
           { response := some "Paris", source_nodes := [] })) :=
  synthesize_streaming_single_stream_call
    (GPTEmptyIndexQuery.init PyObject.pyNone true svcOk) bundle0 [] none
    "Paris" "capital of France" rfl rfl

/-- C3: the factory `from_args` raises
`ValueError("response_mode should not be specified for empty query")` for
every response mode other than `GENERATION`, before any instance is
constructed, and for `GENERATION` it delegates to the base factory without
raising. -/
theorem from_args_rejects_non_generation
    (mode : ResponseMode) (ip : PyObject) (st : Bool) (sc : ServiceContext) :
    (mode ≠ ResponseMode.GENERATION →
      GPTEmptyIndexQuery.from_args mode ip st sc
        = Except.error "response_mode should not be specified for empty query") ∧
    GPTEmptyIndexQuery.from_args ResponseMode.GENERATION ip st sc
      = Except.ok (BaseGPTIndexQuery.from_args ResponseMode.GENERATION ip st sc) := by
  constructor
  · intro h
    simp [GPTEmptyIndexQuery.from_args, h]
  · simp [GPTEmptyIndexQuery.from_args]

/-- C3 witness: the mode `TREE_SUMMARIZE` is rejected at a concrete
configuration. -/
theorem from_args_rejects_non_generation_witness :
    GPTEmptyIndexQuery.from_args ResponseMode.TREE_SUMMARIZE PyObject.pyNone false svcOk
      = Except.error "response_mode should not be specified for empty query" :=
  (from_args_rejects_non_generation ResponseMode.TREE_SUMMARIZE
    PyObject.pyNone false svcOk).1 (by decide)

/-- C4: `retrieve` returns the empty list of scored nodes for every query
bundle; the model is a pure function, so it has no side effects and cannot
fail. -/
theorem retrieve_always_empty (q : GPTEmptyIndexQuery) (b : QueryBundle) :
    q.retrieve b = ([] : List NodeWithScore) := rfl

/-- C5: the observable behaviour of `synthesize` — both the prediction
calls issued and the returned value — is identical for any two calls that
agree on the instance and query bundle but differ arbitrarily in `nodes`
and `additional_source_nodes`. -/
theorem synthesize_ignores_nodes_arguments
    (q : GPTEmptyIndexQuery) (b : QueryBundle)
    (nodes1 nodes2 : List NodeWithScore)
    (asn1 asn2 : Option (List NodeWithScore)) :
    q.synthesize b nodes1 asn1 = q.synthesize b nodes2 asn2 := rfl

/-- C6: an instance constructed with a custom template passes exactly that
template to the prediction service, and an instance constructed without one
passes the module-level default, in both the streaming and non-streaming
paths (the configuration `st` is arbitrary), and in each case in exactly
one call. -/
theorem synthesize_template_selection
    (p : SimpleInputPrompt) (st : Bool) (sc : ServiceContext) (b : QueryBundle)
    (nodes : List NodeWithScore) (asn : Option (List NodeWithScore)) :
    (((GPTEmptyIndexQuery.init (PyObject.pyPrompt p) st sc).synthesize
        b nodes asn).1.map PredCall.prompt = [PyObject.pyPrompt p]) ∧
    (((GPTEmptyIndexQuery.init PyObject.pyNone st sc).synthesize
        b nodes asn).1.map PredCall.prompt
      = [PyObject.pyPrompt DEFAULT_SIMPLE_INPUT_PROMPT]) := by
  constructor <;>
    rw [synthesize_calls_eq] <;>
    cases st <;>
    simp [GPTEmptyIndexQuery.init, PyObject.truthy, PredCall.prompt]

/-- C7: `synthesize` performs no local error handling: when the service
call fails (the blocking `predict` in the non-streaming path, or
`predict_with_stream` in the streaming path), that failure is the outcome
of `synthesize`, unchanged, and no `Response` is constructed. -/
theorem synthesize_propagates_errors
    (q : GPTEmptyIndexQuery) (b : QueryBundle) (nodes : List NodeWithScore)
    (asn : Option (List NodeWithScore)) (e : String) :
    (q._streaming = false →
      q._service_context.llm_predictor.predict q._input_prompt b.query_str
          = Except.error e →
      (q.synthesize b nodes asn).2 = Except.error e) ∧
    (q._streaming = true →
      q._service_context.llm_predictor.predict_with_stream
          q._input_prompt true b.query_str = Except.error e →
      (q.synthesize b nodes asn).2 = Except.error e) := by
  constructor <;> intro hs hp <;>
    rw [synthesize_result_eq, hs] <;> simp [hp, Except.map]

/-- C7 witness: a concrete failing service's error surfaces unchanged from
a concrete non-streaming instance. -/
theorem synthesize_propagates_errors_witness :
    ((GPTEmptyIndexQuery.init PyObject.pyNone false svcErr).synthesize
        bundle0 [] none).2 = Except.error "provider failure" :=
  (synthesize_propagates_errors
    (GPTEmptyIndexQuery.init PyObject.pyNone false svcErr)
    bundle0 [] none "provider failure").1 rfl rfl

/-- C8: every successful outcome of `synthesize` is a plain `Response`
whose source-node list is empty: the component never attaches source nodes
to the response it returns. -/
theorem synthesize_response_has_no_source_nodes
    (q : GPTEmptyIndexQuery) (b : QueryBundle) (nodes : List NodeWithScore)
    (asn : Option (List NodeWithScore)) (rt : RESPONSE_TYPE)
    (h : (q.synthesize b nodes asn).2 = Except.ok rt) :
    ∃ r : Response, rt = RESPONSE_TYPE.plain r ∧ r.source_nodes = [] := by
  rw [synthesize_result_eq] at h
  cases hr : (if q._streaming then
      q._service_context.llm_predictor.predict_with_stream
        q._input_prompt true b.query_str
    else
      q._service_context.llm_predictor.predict q._input_prompt b.query_str) with
  | error e =>
      rw [hr] at h
      simp [Except.map] at h
  | ok pr =>
      rw [hr] at h
      simp [Except.map] at h
      exact ⟨_, h.symm, rfl⟩

/-- C8 witness: at a concrete instance and service, the produced response
is plain and carries no source nodes. -/
theorem synthesize_response_has_no_source_nodes_witness :
    ∃ r : Response,
      RESPONSE_TYPE.plain { response := some "Paris", source_nodes := [] }
        = RESPONSE_TYPE.plain r ∧ r.source_nodes = [] :=
  synthesize_response_has_no_source_nodes
    (GPTEmptyIndexQuery.init PyObject.pyNone false svcOk) bundle0 nodes0 none
    (RESPONSE_TYPE.plain { response := some "Paris", source_nodes := [] }) rfl

/-- C9: the constructor tests `input_prompt` by Python truthiness, so every
falsy argument — not only `None` — makes the stored template the
module-level default. -/
theorem init_falsy_prompt_falls_back_to_default
    (v : PyObject) (st : Bool) (sc : ServiceContext)
    (h : v.truthy = false) :
    (GPTEmptyIndexQuery.init v st sc)._input_prompt
      = PyObject.pyPrompt DEFAULT_SIMPLE_INPUT_PROMPT := by
  simp [GPTEmptyIndexQuery.init, h]

/-- C9 witness: the empty string is falsy but is not `None`, and it too
falls back to the default template. -/
theorem init_falsy_prompt_falls_back_to_default_witness :
    (PyObject.pyStr "").truthy = false ∧ PyObject.pyStr "" ≠ PyObject.pyNone ∧
    (GPTEmptyIndexQuery.init (PyObject.pyStr "") true svcOk)._input_prompt
      = PyObject.pyPrompt DEFAULT_SIMPLE_INPUT_PROMPT :=
  ⟨rfl, by decide,
   init_falsy_prompt_falls_back_to_default (PyObject.pyStr "") true svcOk rfl⟩

/-- C10: whenever `from_args` returns without raising, the response mode it
forwarded to the base factory is `GENERATION`; the defaulted mode
`from_args_default_response_mode` is `GENERATION` as well, so this covers
calls that omit the argument. -/
theorem from_args_success_mode_is_generation
    (mode : ResponseMode) (ip : PyObject) (st : Bool) (sc : ServiceContext)
    (built : BuiltQuery)
    (h : GPTEmptyIndexQuery.from_args mode ip st sc = Except.ok built) :
    built.response_mode = ResponseMode.GENERATION ∧
    GPTEmptyIndexQuery.from_args_default_response_mode = ResponseMode.GENERATION := by
  refine ⟨?_, rfl⟩
  by_cases hm : mode = ResponseMode.GENERATION
  · subst hm
    simp [GPTEmptyIndexQuery.from_args] at h
    rw [← h]
    rfl
  · simp [GPTEmptyIndexQuery.from_args, hm] at h

/-- C10 witness: a concrete successful construction carries mode
`GENERATION`. -/
theorem from_args_success_mode_is_generation_witness :
    (BaseGPTIndexQuery.from_args ResponseMode.GENERATION PyObject.pyNone
        false svcOk).response_mode = ResponseMode.GENERATION ∧
    GPTEmptyIndexQuery.from_args_default_response_mode = ResponseMode.GENERATION :=
  from_args_success_mode_is_generation ResponseMode.GENERATION PyObject.pyNone
    false svcOk
    (BaseGPTIndexQuery.from_args ResponseMode.GENERATION PyObject.pyNone false svcOk)
    rfl
